import Mathlib

/-!
A formal model of DevManager's mirror resolution and configuration
subsystem, translated from the Python sources
(`config_scripts/config_pip.py`, `config_scripts/config_npm.py`,
`app/composer_config.py`, `app/manager/java/maven_config.py`,
`app/manager/minio/minio_config.py`).

Latencies (wall-clock seconds, Python floats) are modelled as rationals.
File-system and process effects are modelled as explicit event traces:
each configurator function takes a "world" record describing the outcome
of every external interaction the real code performs, and returns its
boolean result together with the ordered list of effects it issued.
-/

namespace DevManager

open List

/-- Response time in seconds (a Python float in the source). -/
abbrev Latency := ℚ

/-- One entry of a tool's `MIRRORS` table: display name, base url and the
optional per-tool extras (`trusted_host` for pip, `home` for the others). -/
structure Mirror where
  name : String
  url : String
  trusted_host : Option String := none
  home : Option String := none
deriving DecidableEq, Repr

/-- One element of the `results` list built by `test_all_mirrors`:
the tuple `(key, mirror['name'], speed)`, where `speed` is `None` on a
failed probe. -/
structure ProbeResult where
  key : String
  name : String
  speed : Option Latency
deriving DecidableEq, Repr

/-- The comparison induced by the Python sort key
`lambda x: (x[2] is None, x[2] if x[2] is not None else float('inf'))`:
lexicographic on (is-failure, latency-or-infinity). -/
def speedKeyLE : Option Latency → Option Latency → Bool
  | some x, some y => decide (x ≤ y)
  | some _, none => true
  | none, some _ => false
  | none, none => true

/-- The sort relation on probe results used by `results.sort(key=...)`. -/
def probeLE (p q : ProbeResult) : Prop := speedKeyLE p.speed q.speed = true

instance : DecidableRel probeLE :=
  fun p q => inferInstanceAs (Decidable (speedKeyLE p.speed q.speed = true))

instance : IsTotal ProbeResult probeLE := by
  constructor
  rintro ⟨ka, na, sa⟩ ⟨kb, nb, sb⟩
  unfold probeLE speedKeyLE
  rcases sa with _ | x <;> rcases sb with _ | y <;> simp
  exact le_total x y

instance : IsTrans ProbeResult probeLE := by
  constructor
  rintro ⟨ka, na, sa⟩ ⟨kb, nb, sb⟩ ⟨kc, nc, sc⟩ hab hbc
  unfold probeLE speedKeyLE at *
  rcases sa with _ | x <;> rcases sb with _ | y <;> rcases sc with _ | z <;> simp_all
  exact le_trans hab hbc

/-- `results.sort(key=lambda x: (x[2] is None, ...))`.  Python's `list.sort`
is a stable sort; a stable sort of a list by a total preorder has a unique
result, so any stable sorting algorithm — here Mathlib's insertion sort —
is a faithful model of it. -/
def rankResults (rs : List ProbeResult) : List ProbeResult :=
  rs.insertionSort probeLE

/-- `test_all_mirrors` (identical in `config_pip.py` and `config_npm.py`):
probe every catalog mirror in registration order, collect
`(key, name, speed)` triples, and stable-sort them by the speed key.
The network is abstracted by the `probe` oracle giving each mirror's
measured latency (`none` = timeout/failure). -/
def test_all_mirrors (catalog : List (String × Mirror))
    (probe : String → Mirror → Option Latency) : List ProbeResult :=
  rankResults (catalog.map fun km => ⟨km.1, km.2.name, probe km.1 km.2⟩)

/-- The recommendation step at the end of `test_all_mirrors`
(`if results and results[0][2] is not None: ...` recommends `results[0]`). -/
def recommend : List ProbeResult → Option ProbeResult
  | [] => none
  | r :: _ => if r.speed.isSome then some r else none

/-- `PipConfigurator.MIRRORS` from `config_scripts/config_pip.py`. -/
def PIP_MIRRORS : List (String × Mirror) :=
  [("tsinghua", { name := "清华大学",
                  url := "https://pypi.tuna.tsinghua.edu.cn/simple",
                  trusted_host := some "pypi.tuna.tsinghua.edu.cn" }),
   ("aliyun", { name := "阿里云",
                url := "https://mirrors.aliyun.com/pypi/simple/",
                trusted_host := some "mirrors.aliyun.com" }),
   ("tencent", { name := "腾讯云",
                 url := "https://mirrors.cloud.tencent.com/pypi/simple",
                 trusted_host := some "mirrors.cloud.tencent.com" }),
   ("douban", { name := "豆瓣",
                url := "https://pypi.douban.com/simple/",
                trusted_host := some "pypi.douban.com" }),
   ("ustc", { name := "中国科技大学",
              url := "https://pypi.mirrors.ustc.edu.cn/simple/",
              trusted_host := some "pypi.mirrors.ustc.edu.cn" }),
   ("huawei", { name := "华为云",
                url := "https://repo.huaweicloud.com/repository/pypi/simple",
                trusted_host := some "repo.huaweicloud.com" }),
   ("official", { name := "官方源",
                  url := "https://pypi.org/simple",
                  trusted_host := some "pypi.org" })]

/-- `ComposerConfigurator.MIRRORS` from `app/composer_config.py`. -/
def COMPOSER_MIRRORS : List (String × Mirror) :=
  [("aliyun", { name := "阿里云",
                url := "https://mirrors.aliyun.com/composer/",
                home := some "https://developer.aliyun.com/composer" }),
   ("tencent", { name := "腾讯云",
                 url := "https://mirrors.cloud.tencent.com/composer/",
                 home := some "https://mirrors.cloud.tencent.com" }),
   ("huawei", { name := "华为云",
                url := "https://repo.huaweicloud.com/repository/php/",
                home := some "https://mirrors.huaweicloud.com" }),
   ("cnpkg", { name := "中国全量镜像",
               url := "https://packagist.cn/",
               home := some "https://packagist.cn" }),
   ("sjtug", { name := "上海交通大学",
               url := "https://mirrors.sjtug.sjtu.edu.cn/composer/",
               home := some "https://mirrors.sjtug.sjtu.edu.cn" }),
   ("official", { name := "官方源",
                  url := "https://repo.packagist.org/",
                  home := some "https://packagist.org" })]

/-- `MavenConfigurator.MIRRORS` from `app/manager/java/maven_config.py`. -/
def MAVEN_MIRRORS : List (String × Mirror) :=
  [("aliyun", { name := "阿里云公共仓库",
                url := "https://maven.aliyun.com/repository/public",
                home := some "https://developer.aliyun.com/mvn/" }),
   ("huawei", { name := "华为云镜像",
                url := "https://repo.huaweicloud.com/repository/maven/",
                home := some "https://mirrors.huaweicloud.com/" }),
   ("tencent", { name := "腾讯云镜像",
                 url := "https://mirrors.cloud.tencent.com/nexus/repository/maven-public/",
                 home := some "https://mirrors.cloud.tencent.com/" }),
   ("netease", { name := "网易镜像",
                 url := "https://mirrors.163.com/maven/repository/maven-public/",
                 home := some "https://mirrors.163.com/" }),
   ("ustc", { name := "中科大镜像",
              url := "https://mirrors.ustc.edu.cn/maven/",
              home := some "https://mirrors.ustc.edu.cn/" }),
   ("official", { name := "Maven中央仓库",
                  url := "https://repo1.maven.org/maven2/",
                  home := some "https://maven.apache.org/" })]

example : rankResults [⟨"a", "A", none⟩, ⟨"b", "B", some 2⟩, ⟨"c", "C", some 1⟩] =
    [⟨"c", "C", some 1⟩, ⟨"b", "B", some 2⟩, ⟨"a", "A", none⟩] := by decide

example : rankResults [⟨"a", "A", some (mkRat 3 25)⟩, ⟨"b", "B", none⟩] =
    [⟨"a", "A", some (mkRat 3 25)⟩, ⟨"b", "B", none⟩] := by decide

/-- The two-mirror catalog of the spec's concrete scenario: mirror `a`
answers in 120 ms (0.12 s = 3/25), mirror `b` times out. -/
def scenarioCatalog : List (String × Mirror) :=
  [("a", { name := "mirror-a", url := "https://example.org/a" }),
   ("b", { name := "mirror-b", url := "https://example.org/b" })]

/-- Probe oracle for the scenario: `a` succeeds in 0.12 s, `b` fails. -/
def scenarioProbe : String → Mirror → Option Latency :=
  fun key _ => if key = "a" then some (mkRat 3 25) else none

/-- Helper: entries with equal sort keys are related by `probeLE`. -/
theorem probeLE_of_speed_eq {a b : ProbeResult} (h : a.speed = b.speed) : probeLE a b := by
  unfold probeLE speedKeyLE
  rw [h]
  rcases b.speed with _ | y
  · rfl
  · exact decide_eq_true (le_refl y)

/-- **C1.** The sort performed by `test_all_mirrors` over any list of probe
results (one per catalog mirror) is total and stable: (1) every entry
occurs in the output exactly as often as in the input (hence exactly once
when the input lists each mirror once); (2) every entry with a non-null
latency precedes every entry with a null latency; (3) entries with
non-null latency appear in ascending latency order; (4) entries with
equal sort keys (identical latency options) keep their input order. -/
theorem test_all_mirrors_sort_total_stable (rs : List ProbeResult) :
    (∀ x, (rankResults rs).count x = rs.count x) ∧
    (∀ a b, [a, b] <+ rankResults rs → a.speed = none → b.speed = none) ∧
    (∀ a b x y, [a, b] <+ rankResults rs → a.speed = some x → b.speed = some y → x ≤ y) ∧
    (∀ a b, [a, b] <+ rs → a.speed = b.speed → [a, b] <+ rankResults rs) := by
  have hsorted : (rankResults rs).Pairwise probeLE :=
    List.sorted_insertionSort probeLE rs
  refine ⟨fun x => (List.perm_insertionSort probeLE rs).count_eq x, ?_, ?_, ?_⟩
  · intro a b hsub ha
    have hp : ([a, b] : List ProbeResult).Pairwise probeLE :=
      List.Pairwise.sublist hsub hsorted
    have hle : probeLE a b := (List.pairwise_cons.mp hp).1 b (by simp)
    unfold probeLE at hle
    rw [ha] at hle
    rcases hb : b.speed with _ | y
    · rfl
    · rw [hb] at hle
      simp [speedKeyLE] at hle
  · intro a b x y hsub ha hb
    have hp : ([a, b] : List ProbeResult).Pairwise probeLE :=
      List.Pairwise.sublist hsub hsorted
    have hle : probeLE a b := (List.pairwise_cons.mp hp).1 b (by simp)
    unfold probeLE at hle
    rw [ha, hb] at hle
    exact of_decide_eq_true hle
  · intro a b hsub hkey
    exact List.pair_sublist_insertionSort (probeLE_of_speed_eq hkey) hsub

/-- Witness for C1 at a concrete probe-result list. -/
theorem test_all_mirrors_sort_total_stable_witness :
    (rankResults [⟨"a", "A", none⟩, ⟨"b", "B", some 2⟩, ⟨"c", "C", none⟩,
        ⟨"d", "D", some 1⟩]).count ⟨"b", "B", some 2⟩ = 1 ∧
    (⟨"c", "C", none⟩ : ProbeResult).speed = none ∧
    (1 : ℚ) ≤ 2 ∧
    [⟨"a", "A", none⟩, ⟨"c", "C", none⟩] <+
      rankResults [⟨"a", "A", none⟩, ⟨"b", "B", some 2⟩, ⟨"c", "C", none⟩,
        ⟨"d", "D", some 1⟩] := by
  have h := test_all_mirrors_sort_total_stable
    [⟨"a", "A", none⟩, ⟨"b", "B", some 2⟩, ⟨"c", "C", none⟩, ⟨"d", "D", some 1⟩]
  refine ⟨?_, ?_, ?_, ?_⟩
  · rw [h.1]
    decide
  · exact h.2.1 ⟨"a", "A", none⟩ ⟨"c", "C", none⟩ (by decide) rfl
  · exact h.2.2.1 ⟨"d", "D", some 1⟩ ⟨"b", "B", some 2⟩ 1 2 (by decide) rfl rfl
  · exact h.2.2.2 ⟨"a", "A", none⟩ ⟨"c", "C", none⟩ (by decide) rfl

/-- **C9.** A mirror is recommended iff the ranked list's first entry has a
non-null latency, in which case that first entry is the recommendation;
when every probe failed no mirror is recommended; and on the spec's
concrete two-mirror scenario (`a` = 120 ms, `b` = timeout) the ranking is
`[a, b]` and `a` is recommended. -/
theorem recommend_first_success :
    (∀ rs r, recommend rs = some r ↔ rs.head? = some r ∧ r.speed ≠ none) ∧
    (∀ rs, (∀ r ∈ rs, r.speed = none) → recommend (rankResults rs) = none) ∧
    (test_all_mirrors scenarioCatalog scenarioProbe =
      [⟨"a", "mirror-a", some (mkRat 3 25)⟩, ⟨"b", "mirror-b", none⟩] ∧
     recommend (test_all_mirrors scenarioCatalog scenarioProbe) =
      some ⟨"a", "mirror-a", some (mkRat 3 25)⟩) := by
  refine ⟨?_, ?_, by decide, by decide⟩
  · intro rs r
    cases rs with
    | nil => simp [recommend]
    | cons q rest =>
      rcases hc : q.speed with _ | v
      · simp only [recommend, hc, Option.isSome_none, List.head?_cons, Option.some_inj]
        constructor
        · intro h
          exact absurd h (by simp)
        · rintro ⟨rfl, hne⟩
          exact absurd hc hne
      · simp only [recommend, hc, Option.isSome_some, if_true, List.head?_cons,
          Option.some_inj]
        constructor
        · rintro rfl
          exact ⟨rfl, by simp [hc]⟩
        · exact fun h => h.1
  · intro rs hall
    cases hrk : rankResults rs with
    | nil => rfl
    | cons q rest =>
      have hq : q ∈ rs := by
        have : q ∈ rankResults rs := by
          rw [hrk]
          exact List.mem_cons_self q rest
        exact (List.perm_insertionSort probeLE rs).mem_iff.mp this
      simp [recommend, hall q hq]

/-- Witness for C9 at concrete lists. -/
theorem recommend_first_success_witness :
    recommend (rankResults [⟨"x", "X", none⟩]) = none ∧
    recommend [⟨"a", "A", some 1⟩] = some ⟨"a", "A", some 1⟩ := by
  constructor
  · exact recommend_first_success.2.1 [⟨"x", "X", none⟩] (by decide)
  · exact (recommend_first_success.1 [⟨"a", "A", some 1⟩] ⟨"a", "A", some 1⟩).mpr
      ⟨rfl, by simp⟩

/-! ### Latency probe (`test_mirror_speed`) -/

/-- Outcome of the single `urllib.request.urlopen` call (together with the
partial `response.read(1024)`) that a probe performs: either it completes,
yielding the measured elapsed wall-clock time, or it fails at the network
layer (`urllib.error.URLError` — DNS failure, refused connection, timeout
and HTTP errors), or it raises any other exception. -/
inductive NetReply where
  | success (elapsed : Latency)
  | urlError
  | otherError
deriving DecidableEq, Repr

/-- One outbound HTTP request: target url, timeout in seconds, headers. -/
structure NetRequest where
  url : String
  timeout : ℕ
  headers : List (String × String)
deriving DecidableEq, Repr

/-- The request built by `PipConfigurator.test_mirror_speed`. -/
def pipProbeRequest (m : Mirror) (timeout : ℕ) : NetRequest :=
  ⟨m.url, timeout, [("User-Agent", "pip/23.0")]⟩

/-- The request built by `ComposerConfigurator.test_mirror_speed`, which
probes `mirror['url'] + 'packages.json'`. -/
def composerProbeRequest (m : Mirror) (timeout : ℕ) : NetRequest :=
  ⟨m.url ++ "packages.json", timeout,
   [("User-Agent", "Composer/2.0.0"), ("Accept", "application/json")]⟩

/-- Shared body of the per-tool `test_mirror_speed` variants: issue the
one request, return the elapsed time on success and `None` on any caught
failure, together with the list of requests issued (the body contains a
single `urlopen` call and no retry loop). -/
def probeRun (req : NetRequest) (net : NetRequest → NetReply) :
    Option Latency × List NetRequest :=
  match net req with
  | .success t => (some t, [req])
  | .urlError => (none, [req])
  | .otherError => (none, [req])

/-- `PipConfigurator.test_mirror_speed`, with the network abstracted as an
oracle from requests to outcomes.  The function is total: the Python body
wraps its whole work in `try` with `except URLError` and a catch-all
`except Exception`, both returning `None`. -/
def pip_test_mirror_speed (m : Mirror) (timeout : ℕ)
    (net : NetRequest → NetReply) : Option Latency × List NetRequest :=
  probeRun (pipProbeRequest m timeout) net

/-- `ComposerConfigurator.test_mirror_speed`, same structure as the pip
variant but probing the `packages.json` sub-path. -/
def composer_test_mirror_speed (m : Mirror) (timeout : ℕ)
    (net : NetRequest → NetReply) : Option Latency × List NetRequest :=
  probeRun (composerProbeRequest m timeout) net

/-- Helper: full characterization of one probe run. -/
theorem probeRun_spec (req : NetRequest) (net : NetRequest → NetReply) :
    (probeRun req net).2.length = 1 ∧
    (∀ t, net req = .success t ↔ (probeRun req net).1 = some t) ∧
    ((∀ t, net req ≠ .success t) → (probeRun req net).1 = none) := by
  rcases h : net req with t | _ | _ <;> simp only [probeRun, h]
  · refine ⟨rfl, fun u => ?_, fun hn => absurd rfl (hn t)⟩
    constructor
    · intro he
      injection he with he
      rw [he]
    · intro he
      injection he with he
      rw [he]
  · refine ⟨rfl, fun u => ?_, fun _ => trivial⟩
    constructor
    · intro he
      cases he
    · intro he
      cases he
  · refine ⟨rfl, fun u => ?_, fun _ => trivial⟩
    constructor
    · intro he
      cases he
    · intro he
      cases he

/-- **C5.** For every mirror, timeout and network behaviour, one probe
call makes exactly one request attempt, its result is the elapsed time
exactly when the request succeeded, and it is `None` whenever the request
failed in any way; the probe is a total function of the network outcome
(the Python body catches `URLError` and every other exception), so it
never raises to its caller.  Stated for both the pip and the Composer
variants. -/
theorem test_mirror_speed_single_attempt_no_raise (m : Mirror) (timeout : ℕ)
    (net : NetRequest → NetReply) :
    ((pip_test_mirror_speed m timeout net).2.length = 1 ∧
     (∀ t, net (pipProbeRequest m timeout) = .success t ↔
        (pip_test_mirror_speed m timeout net).1 = some t) ∧
     ((∀ t, net (pipProbeRequest m timeout) ≠ .success t) →
        (pip_test_mirror_speed m timeout net).1 = none)) ∧
    ((composer_test_mirror_speed m timeout net).2.length = 1 ∧
     (∀ t, net (composerProbeRequest m timeout) = .success t ↔
        (composer_test_mirror_speed m timeout net).1 = some t) ∧
     ((∀ t, net (composerProbeRequest m timeout) ≠ .success t) →
        (composer_test_mirror_speed m timeout net).1 = none)) :=
  ⟨probeRun_spec _ net, probeRun_spec _ net⟩

/-- Witness for C5 at a concrete mirror and two concrete network
behaviours (one failing, one succeeding). -/
theorem test_mirror_speed_single_attempt_no_raise_witness :
    (pip_test_mirror_speed ⟨"m", "https://example.org/", none, none⟩ 5
      (fun _ => NetReply.urlError)).1 = none ∧
    (pip_test_mirror_speed ⟨"m", "https://example.org/", none, none⟩ 5
      (fun _ => NetReply.success 1)).1 = some 1 ∧
    (composer_test_mirror_speed ⟨"m", "https://example.org/", none, none⟩ 5
      (fun _ => NetReply.urlError)).2.length = 1 := by
  refine ⟨?_, ?_, ?_⟩
  · exact (test_mirror_speed_single_attempt_no_raise _ 5 _).1.2.2
      (fun t he => NetReply.noConfusion he)
  · exact ((test_mirror_speed_single_attempt_no_raise _ 5 _).1.2.1 1).mp rfl
  · exact (test_mirror_speed_single_attempt_no_raise _ 5 _).2.1

/-! ### String patching primitives

File contents are modelled as lists of characters.  `splitOnFirst`
realizes the leftmost-occurrence search underlying both Python's
`str.replace` and the (literal-anchored, non-greedy) regular expressions
used on `settings.xml`; `replaceAll` realizes `str.replace`, which
substitutes every non-overlapping occurrence left to right. -/

/-- File contents: a sequence of characters. -/
abbrev Str := List Char

/-- Split `s` around the leftmost occurrence of `pat`:
`some (pre, suf)` with `s = pre ++ pat ++ suf` and `pre` shortest,
`none` when `pat` does not occur in `s`. -/
def splitOnFirst (pat : Str) : Str → Option (Str × Str)
  | [] => if pat.isEmpty then some ([], []) else none
  | c :: rest =>
    if pat.isPrefixOf (c :: rest) then some ([], (c :: rest).drop pat.length)
    else
      match splitOnFirst pat rest with
      | some (pre, suf) => some (c :: pre, suf)
      | none => none

/-- A successful split is a decomposition of the input. -/
theorem splitOnFirst_eq {pat s pre suf : Str}
    (h : splitOnFirst pat s = some (pre, suf)) : s = pre ++ pat ++ suf := by
  induction s generalizing pre suf with
  | nil =>
    unfold splitOnFirst at h
    by_cases hp : pat.isEmpty
    · rw [if_pos hp] at h
      injection h with h
      injection h with h1 h2
      rw [← h1, ← h2, List.isEmpty_iff.mp hp]
      rfl
    · rw [if_neg hp] at h
      cases h
  | cons c rest ih =>
    unfold splitOnFirst at h
    by_cases hp : pat.isPrefixOf (c :: rest) = true
    · rw [if_pos hp] at h
      injection h with h
      injection h with h1 h2
      obtain ⟨t, ht⟩ := List.isPrefixOf_iff_prefix.mp hp
      rw [← h1, ← h2, ← ht, List.nil_append, List.drop_left]
    · rw [if_neg hp] at h
      rcases hs : splitOnFirst pat rest with _ | pq
      · rw [hs] at h
        cases h
      · rw [hs] at h
        injection h with h
        injection h with h1 h2
        rcases pq with ⟨pre0, suf0⟩
        have := ih hs
        rw [← h1, ← h2]
        simp only [List.cons_append]
        rw [← this]

/-- `str.replace(old, new)` with explicit fuel (structural recursion so
that concrete instances compute in the kernel). -/
def replaceAllAux (pat new : Str) : ℕ → Str → Str
  | 0, s => s
  | fuel + 1, s =>
    match splitOnFirst pat s with
    | none => s
    | some (pre, suf) => pre ++ new ++ replaceAllAux pat new fuel suf

/-- `str.replace(old, new)`: substitute every non-overlapping occurrence
of `pat`, scanning left to right.  `s.length + 1` steps of fuel suffice
since every replacement consumes at least one input character (all
patterns used on `settings.xml` are nonempty). -/
def replaceAll (pat new s : Str) : Str := replaceAllAux pat new (s.length + 1) s

/-- If `pat` does not occur, any amount of fuel leaves `s` unchanged. -/
theorem replaceAllAux_of_none {pat s : Str} (new : Str)
    (h : splitOnFirst pat s = none) :
    ∀ fuel, replaceAllAux pat new fuel s = s := by
  intro fuel
  cases fuel with
  | zero => rfl
  | succ n =>
    unfold replaceAllAux
    rw [h]

/-- If `pat` does not occur in `s`, `replaceAll` leaves `s` unchanged. -/
theorem replaceAll_of_none {pat s : Str} (new : Str)
    (h : splitOnFirst pat s = none) : replaceAll pat new s = s :=
  replaceAllAux_of_none new h _

/-- If `pat` occurs exactly once — leftmost split `(pre, suf)` and no
occurrence in `suf` — then `replaceAll` rewrites exactly that span. -/
theorem replaceAll_single {pat s pre suf : Str} (new : Str)
    (h1 : splitOnFirst pat s = some (pre, suf))
    (h2 : splitOnFirst pat suf = none) :
    replaceAll pat new s = pre ++ new ++ suf := by
  unfold replaceAll replaceAllAux
  rw [h1]
  simp [replaceAllAux_of_none new h2]

/-! ### Maven `settings.xml` patching (`_update_mirror_in_settings`) -/

def openMirrorTag : Str := "<mirror>".data

def closeMirrorTag : Str := "</mirror>".data

def openMirrorsTag : Str := "<mirrors>".data

def closeMirrorsTag : Str := "</mirrors>".data

/-- The leftmost, non-greedy match of the `re.DOTALL` pattern
`openTag.*?closeTag` (the source's `<mirror>.*?</mirror>` and
`<mirrors>.*?</mirrors>`), returned as `(pre, matched-text, post)`.
The pattern starts with the literal `openTag`, so `re.search` matches at
the leftmost `openTag` occurrence that is followed by a `closeTag`; if
the leftmost `openTag` has no `closeTag` after it then no later one has
either, so searching from the leftmost `openTag` is exact.  Non-greedy
`.*?` makes the match end at the first `closeTag` after it. -/
def findBlock (openTag closeTag : Str) (s : Str) : Option (Str × Str × Str) :=
  match splitOnFirst openTag s with
  | none => none
  | some (pre, rest) =>
    match splitOnFirst closeTag rest with
    | none => none
    | some (mid, post) => some (pre, openTag ++ mid ++ closeTag, post)

/-- `url.split("//")[1].split("/")[0]` — the host part of a mirror url.
(Every catalog url contains `//`; a url without it would raise
`IndexError` in the source and is outside the modelled domain.) -/
def hostOf (url : String) : Str :=
  match splitOnFirst "//".data url.data with
  | none => []
  | some (_, rest) => rest.takeWhile (fun c => c ≠ '/')

/-- The `new_mirror` f-string of `_update_mirror_in_settings`. -/
def newMirrorBlock (m : Mirror) : Str :=
  "    <mirror>\n      <id>".data ++ hostOf m.url ++
  "</id>\n      <mirrorOf>*</mirrorOf>\n      <name>".data ++ m.name.data ++
  "</name>\n      <url>".data ++ m.url.data ++ "</url>\n    </mirror>".data

/-- The replacement text inserted for `'</mirrors>'` in the no-mirror
branch: `f'  {new_mirror}\n  </mirrors>'`. -/
def mirrorsInsertion (m : Mirror) : Str :=
  "  ".data ++ newMirrorBlock m ++ "\n  ".data ++ closeMirrorsTag

/-- `MavenConfigurator._update_mirror_in_settings`, as a pure function on
the file's contents: replace the first `<mirror>...</mirror>` match (all
occurrences of its exact text, per `str.replace`); when there is none,
rewrite the `<mirrors>...</mirrors>` block by substituting
`'</mirrors>'` with the new block followed by `'</mirrors>'`; when
neither matches, leave the content unchanged. -/
def update_mirror_in_settings (m : Mirror) (content : Str) : Str :=
  let nm := newMirrorBlock m
  match findBlock openMirrorTag closeMirrorTag content with
  | some (_, matched, _) => replaceAll matched nm content
  | none =>
    match findBlock openMirrorsTag closeMirrorsTag content with
    | some (_, matchedMs, _) =>
      let newMs := replaceAll closeMirrorsTag (mirrorsInsertion m) matchedMs
      replaceAll matchedMs newMs content
    | none => content

example :
    update_mirror_in_settings { name := "n", url := "https://h/x" }
      "<a><mirror>old</mirror><b>".data =
    ("<a>".data ++ newMirrorBlock { name := "n", url := "https://h/x" } ++
      "<b>".data) := by decide

example :
    update_mirror_in_settings { name := "n", url := "https://h/x" }
      "<a><mirrors></mirrors><b>".data =
    ("<a><mirrors>".data ++ mirrorsInsertion { name := "n", url := "https://h/x" } ++
      "<b>".data) := by decide

/-! ### Effect-trace model of the configure/write operations

Each operation is a function of a "world" record (the outcomes of its
external interactions, in program order) returning its result and the
ordered list of side effects it performed. -/

/-- Result of a `subprocess.run(...)` call: terminated with an exit code,
timed out (`subprocess.TimeoutExpired`), or raised another exception. -/
inductive SubResult where
  | exit (code : ℕ)
  | timeout
  | exc
deriving DecidableEq, Repr

/-- One observable side effect of a configurator operation.
`backup` is a `shutil.copy2` whose destination is a backup file
(`dstExisted` records whether that destination already existed);
`overwrite` is a write to a tool's configuration file itself
(`existedBefore` records whether the file existed before the write;
`ok` is false when the copy/write raised). -/
inductive Ev where
  | mkdir (path : String) (ok : Bool)
  | run (cmd : List String) (r : SubResult)
  | backup (src dst : String) (dstExisted ok : Bool)
  | overwrite (path : String) (existedBefore ok : Bool)
  | prompt (answer : Bool)
  | warn (msg : String)
  | verifyCheck (ok : Bool)
deriving DecidableEq, Repr

/-! #### pip: `PipConfigurator.configure_mirror` -/

/-- World for `PipConfigurator.configure_mirror`: whether creating the
pip config directory succeeds, the results of the two
`pip config set` subprocess calls, and the mirror key that
`get_current_config` (a read-only `pip config get` query) resolves to
afterwards (`none` = no configured mirror / query failed;
`some "custom"` = an unrecognized url). -/
structure PipWorld where
  mkdirOk : Bool
  setIndexUrl : SubResult
  setTrustedHost : SubResult
  current : Option String
deriving DecidableEq, Repr

/-- `PipConfigurator.configure_mirror`: reject unknown keys before any
effect; create the config directory; `pip config set global.index-url`
(hard failure on error); `pip config set global.trusted-host` (warning
only on non-zero exit, hard failure on timeout/exception, since both
calls sit in one `try` whose `except` clauses return `False`); then an
advisory verification that only prints a warning; finally return `True`. -/
def pip_configure_mirror (mirror_key : String) (w : PipWorld) : Bool × List Ev :=
  match PIP_MIRRORS.find? (fun p => p.1 == mirror_key) with
  | none => (false, [])
  | some km =>
    let tr0 := [Ev.mkdir "~/.pip" w.mkdirOk]
    if !w.mkdirOk then (false, tr0)
    else
      let tr1 := tr0 ++
        [Ev.run ["pip", "config", "set", "global.index-url", km.2.url] w.setIndexUrl]
      match w.setIndexUrl with
      | .timeout => (false, tr1)
      | .exc => (false, tr1)
      | .exit c =>
        if c ≠ 0 then (false, tr1)
        else
          let tr2 := tr1 ++ [Ev.run ["pip", "config", "set", "global.trusted-host",
            km.2.trusted_host.getD ""] w.setTrustedHost]
          match w.setTrustedHost with
          | .timeout => (false, tr2)
          | .exc => (false, tr2)
          | .exit c2 =>
            let tr3 := tr2 ++
              (if c2 = 0 then [] else [Ev.warn "trusted-host-set-failed"])
            let matched : Bool := w.current == some mirror_key
            let tr4 := tr3 ++ [Ev.verifyCheck matched] ++
              (if matched then [] else [Ev.warn "config-may-not-be-active"])
            (true, tr4)

/-! #### Composer: `ComposerConfigurator.configure_mirror` -/

/-- `url.rstrip('/')`. -/
def rstripSlashes (s : String) : Str :=
  (s.data.reverse.dropWhile (fun c => c = '/')).reverse

/-- Python's `needle in hay` substring test. -/
def containsSubstr (needle hay : Str) : Bool := (splitOnFirst needle hay).isSome

/-- World for `ComposerConfigurator.configure_mirror`: the
`composer --version` prerequisite check, whether creating `COMPOSER_HOME`
succeeds (this `mkdir` is *not* inside a try/except, so its failure
propagates as an uncaught exception, modelled as result `none`), the
result of the `composer config` call, and the mirror url string that
`get_current_mirror` (read-only) reports afterwards. -/
structure ComposerWorld where
  versionCheck : SubResult
  mkdirOk : Bool
  configCmd : SubResult
  current : Option String
deriving DecidableEq, Repr

/-- `ComposerConfigurator.configure_mirror`.  Result `some b` is the
Python return value `b`; `none` is an uncaught exception (failed
`mkdir`). -/
def composer_configure_mirror (mirror_key : String) (w : ComposerWorld) :
    Option Bool × List Ev :=
  match COMPOSER_MIRRORS.find? (fun p => p.1 == mirror_key) with
  | none => (some false, [])
  | some km =>
    let tr0 := [Ev.run ["composer", "--version"] w.versionCheck]
    if w.versionCheck != SubResult.exit 0 then (some false, tr0)
    else
      let tr1 := tr0 ++ [Ev.mkdir "COMPOSER_HOME" w.mkdirOk]
      if !w.mkdirOk then (none, tr1)
      else
        let cmd := if mirror_key == "official"
          then ["composer", "config", "--unset", "repos.packagist.org"]
          else ["composer", "config", "--global", "repos.packagist.org",
                "composer", km.2.url]
        let tr2 := tr1 ++ [Ev.run cmd w.configCmd]
        match w.configCmd with
        | .timeout => (some false, tr2)
        | .exc => (some false, tr2)
        | .exit c =>
          if c ≠ 0 then (some false, tr2)
          else
            let verified : Bool :=
              match w.current with
              | none => mirror_key == "official"
              | some cur => containsSubstr (rstripSlashes km.2.url) cur.data
            let tr3 := tr2 ++ [Ev.verifyCheck verified] ++
              (if verified then [] else [Ev.warn "config-may-not-be-active"])
            (some true, tr3)

/-! #### Maven: `MavenConfigurator.configure_mirror` -/

/-- The target path `~/.m2/settings.xml` (basename; all involved files
live in the `.m2` directory). -/
def settingsPath : String := "settings.xml"

/-- `self.target_settings.with_suffix('.xml.backup')` =
`settings.xml.backup` = `<path>.backup`. -/
def plainBackupPath : String := settingsPath ++ ".backup"

/-- `f"settings.xml.backup.{timestamp}"`. -/
def tsBackupPath (ts : String) : String := settingsPath ++ ".backup." ++ ts

/-- World for `MavenConfigurator.configure_mirror`, in program order:
existence of the bundled template (`resources/settings.xml`) and its
contents, the `.m2` mkdir outcome, the pre-existing target file and its
contents, which backup names already exist, the timestamp used for the
fallback backup name, the outcomes of the backup copy / template copy /
patched write, the interactive answer to the continue-after-failed-backup
prompt, and the advisory `verify_configuration()` result (a read-only XML
parse, abstracted to its boolean outcome). -/
structure MavenWorld where
  sourceExists : Bool
  templateContent : Str
  mkdirOk : Bool
  targetExists : Bool
  prevContent : Str
  plainBackupExists : Bool
  tsBackupExists : Bool
  timestamp : String
  backupCopyOk : Bool
  userContinue : Bool
  copyTemplateOk : Bool
  updateWriteOk : Bool
  verified : Bool
deriving DecidableEq, Repr

/-- Result of a Maven configure operation: the returned boolean, the
effect trace, and the contents of `settings.xml` afterwards (`none` =
file absent or state unspecified after a failed write). -/
structure MavenOutcome where
  ok : Bool
  trace : List Ev
  finalContent : Option Str
deriving DecidableEq, Repr

/-- The target file's contents before the operation. -/
def mavenContent0 (w : MavenWorld) : Option Str :=
  if w.targetExists then some w.prevContent else none

/-- `MavenConfigurator.backup_existing_settings` (lines 76–94): when the
target exists, copy it to `settings.xml.backup`, or to
`settings.xml.backup.<timestamp>` when the plain backup name is already
taken (the timestamped name's own existence is *not* checked); returns
whether the copy succeeded (`True` when there was nothing to back up).
Returned here as (result, events). -/
def maven_backup_existing_settings (w : MavenWorld) : Bool × List Ev :=
  if w.targetExists then
    if w.plainBackupExists then
      (w.backupCopyOk,
       [Ev.backup settingsPath (tsBackupPath w.timestamp) w.tsBackupExists w.backupCopyOk])
    else
      (w.backupCopyOk, [Ev.backup settingsPath plainBackupPath false w.backupCopyOk])
  else (true, [])

/-- The `try` block of `MavenConfigurator.configure_mirror` (lines
448–464) followed by the final return: copy the bundled template over the
target, patch the fresh copy with `_update_mirror_in_settings`, then run
the advisory verification — whose failure prints a warning *and returns
False*. -/
def maven_apply_and_verify (m : Mirror) (w : MavenWorld) (tr : List Ev) : MavenOutcome :=
  let tr2 := tr ++ [Ev.overwrite settingsPath w.targetExists w.copyTemplateOk]
  if !w.copyTemplateOk then ⟨false, tr2, none⟩
  else
    let newContent := update_mirror_in_settings m w.templateContent
    let tr3 := tr2 ++ [Ev.overwrite settingsPath true w.updateWriteOk]
    if !w.updateWriteOk then ⟨false, tr3, none⟩
    else
      let tr4 := tr3 ++ [Ev.verifyCheck w.verified]
      if !w.verified then ⟨false, tr4 ++ [Ev.warn "config-may-not-be-active"], some newContent⟩
      else ⟨true, tr4, some newContent⟩

/-- `MavenConfigurator.configure_mirror` (lines 412–473). -/
def maven_configure_mirror (mirror_key : String) (w : MavenWorld) : MavenOutcome :=
  match MAVEN_MIRRORS.find? (fun p => p.1 == mirror_key) with
  | none => ⟨false, [], mavenContent0 w⟩
  | some km =>
    if !w.sourceExists then ⟨false, [], mavenContent0 w⟩
    else
      let tr0 := [Ev.mkdir "~/.m2" w.mkdirOk]
      if !w.mkdirOk then ⟨false, tr0, mavenContent0 w⟩
      else
        let bk := maven_backup_existing_settings w
        let tr1 := tr0 ++ bk.2
        if !bk.1 then
          let tr2 := tr1 ++ [Ev.prompt w.userContinue]
          if !w.userContinue then ⟨false, tr2, mavenContent0 w⟩
          else maven_apply_and_verify km.2 w tr2
        else maven_apply_and_verify km.2 w tr1

/-! #### MinIO: `MinIOConfig.write_config` -/

/-- World for `MinIOConfig.write_config`: the resolved config file path
(`self.config_files[0]`, `none` when the candidate list is empty),
whether that file exists, whether `<path>.backup` exists, and the
outcomes of the backup copy and of the write. -/
structure MinioWorld where
  configFile : Option String
  targetExists : Bool
  backupExists : Bool
  backupCopyOk : Bool
  writeOk : Bool
deriving DecidableEq, Repr

/-- `MinIOConfig.write_config` (lines 147–171): no path → failure with no
effects; otherwise, when the file exists, unconditionally copy it to
`config_file + '.backup'` (overwriting any existing backup — there is no
existence check and no timestamp fallback), then write the new contents.
A raised backup copy or write is caught and mapped to `False`. -/
def minio_write_config (w : MinioWorld) : Bool × List Ev :=
  match w.configFile with
  | none => (false, [])
  | some path =>
    if w.targetExists then
      let tr1 := [Ev.backup path (path ++ ".backup") w.backupExists w.backupCopyOk]
      if !w.backupCopyOk then (false, tr1)
      else (w.writeOk, tr1 ++ [Ev.overwrite path true w.writeOk])
    else (w.writeOk, [Ev.overwrite path false w.writeOk])

/-! ### Trace predicates -/

/-- Scanning the trace left to right, the *first* overwrite of `path`
(the write that destroys the file's pre-operation contents; later
overwrites within the same operation rewrite operation-produced content)
must find the file either absent beforehand or already backed up by a
successful backup with source `path`.  `b` accumulates whether such a
backup has occurred. -/
def backupBeforeDestroy (path : String) : List Ev → Bool → Bool
  | [], _ => true
  | Ev.backup src _ _ ok :: rest, b =>
      backupBeforeDestroy path rest (b || (ok && src == path))
  | Ev.overwrite p existed _ :: rest, b =>
      if p == path then !existed || b else backupBeforeDestroy path rest b
  | _ :: rest, b => backupBeforeDestroy path rest b

/-- Like `backupBeforeDestroy`, but an affirmative answer to an
interactive prompt (the continue-after-failed-backup question) also
licenses the overwrite. -/
def backupOrConsentBeforeDestroy (path : String) : List Ev → Bool → Bool
  | [], _ => true
  | Ev.backup src _ _ ok :: rest, b =>
      backupOrConsentBeforeDestroy path rest (b || (ok && src == path))
  | Ev.prompt a :: rest, b => backupOrConsentBeforeDestroy path rest (b || a)
  | Ev.overwrite p existed _ :: rest, b =>
      if p == path then !existed || b else backupOrConsentBeforeDestroy path rest b
  | _ :: rest, b => backupOrConsentBeforeDestroy path rest b

/-- Every backup copy in the trace targets a destination that did not
already exist. -/
def backupsFresh : List Ev → Bool
  | [] => true
  | Ev.backup _ _ dstExisted _ :: rest => !dstExisted && backupsFresh rest
  | _ :: rest => backupsFresh rest

/-- After the (first) verification step, the trace contains only
warnings and further verification checks — no mutating event, i.e. no
rollback of the written configuration. -/
def noMutationAfterVerify : List Ev → Bool
  | [] => true
  | Ev.verifyCheck _ :: rest =>
      rest.all fun e =>
        match e with
        | Ev.warn _ => true
        | Ev.verifyCheck _ => true
        | _ => false
  | _ :: rest => noMutationAfterVerify rest

/-! ### C2: backup before overwrite -/

/-- Claim C2 as stated, over the operations modelled here that write a
configuration file directly (Maven's `configure_mirror` and MinIO's
`write_config`; pip delegates its config writes to the external `pip`
CLI): a configuration file that existed before the operation is never
overwritten without a prior successful backup copy. -/
def BackupInvariantAsStated : Prop :=
  (∀ mirror_key w,
    backupBeforeDestroy settingsPath
      (maven_configure_mirror mirror_key w).trace false = true) ∧
  (∀ w path, w.configFile = some path →
    backupBeforeDestroy path (minio_write_config w).2 false = true)

/-- Counterexample to C2 as stated: when Maven's backup copy *fails* and
the interactive user answers `y` to the continue prompt, the existing
`settings.xml` is overwritten although no successful backup of it was
made. -/
theorem backup_invariant_counterexample : ¬ BackupInvariantAsStated := by
  intro h
  have := h.1 "aliyun"
    { sourceExists := true, templateContent := [], mkdirOk := true,
      targetExists := true, prevContent := [], plainBackupExists := false,
      tsBackupExists := false, timestamp := "20240101_000000",
      backupCopyOk := false, userContinue := true, copyTemplateOk := true,
      updateWriteOk := true, verified := true }
  exact absurd this (by decide)

/-- **C2 (amended).** A previously existing configuration file is
overwritten only after a prior successful backup copy of it — except
that in Maven's interactive flow, a *failed* backup followed by an
explicit user confirmation (`y` at the continue prompt) also licenses the
overwrite.  MinIO's `write_config` satisfies the invariant
unconditionally (a failed backup aborts before the write). -/
theorem backup_discipline (mirror_key : String) (w : MavenWorld) (w2 : MinioWorld) :
    backupOrConsentBeforeDestroy settingsPath
      (maven_configure_mirror mirror_key w).trace false = true ∧
    (∀ path, w2.configFile = some path →
      backupBeforeDestroy path (minio_write_config w2).2 false = true) := by
  constructor
  · unfold maven_configure_mirror
    rcases hfind : MAVEN_MIRRORS.find? (fun p => p.1 == mirror_key) with _ | km <;>
      rw [hfind]
    · rfl
    · rcases w with ⟨se, tc, mk, te, pc, pbe, tbe, ts, bok, uc, cok, uok, ver⟩
      cases se <;> cases mk <;> cases te <;> cases pbe <;> cases bok <;> cases uc <;>
        cases cok <;> cases uok <;> cases ver <;>
        simp [maven_backup_existing_settings, maven_apply_and_verify,
          backupOrConsentBeforeDestroy]
  · intro path hpath
    rcases w2 with ⟨cf, te, be, bok, wok⟩
    simp only at hpath
    subst hpath
    cases te <;> cases bok <;> cases wok <;>
      simp [minio_write_config, backupBeforeDestroy]

/-- Witness for C2 (amended) at a concrete Maven world (regular
successful flow over an existing file) and a concrete MinIO world. -/
theorem backup_discipline_witness :
    backupOrConsentBeforeDestroy settingsPath
      (maven_configure_mirror "aliyun"
        { sourceExists := true, templateContent := [], mkdirOk := true,
          targetExists := true, prevContent := [], plainBackupExists := false,
          tsBackupExists := false, timestamp := "t", backupCopyOk := true,
          userContinue := false, copyTemplateOk := true, updateWriteOk := true,
          verified := true }).trace false = true ∧
    backupBeforeDestroy "cfg.json"
      (minio_write_config ⟨some "cfg.json", true, true, true, true⟩).2 false = true := by
  have h := backup_discipline "aliyun"
    { sourceExists := true, templateContent := [], mkdirOk := true,
      targetExists := true, prevContent := [], plainBackupExists := false,
      tsBackupExists := false, timestamp := "t", backupCopyOk := true,
      userContinue := false, copyTemplateOk := true, updateWriteOk := true,
      verified := true }
    ⟨some "cfg.json", true, true, true, true⟩
  exact ⟨h.1, h.2 "cfg.json" rfl⟩

/-! ### C3: backup naming -/

/-- Claim C3 as stated (the refutable conjunct): no write ever copies a
backup over an already-existing backup file. -/
def BackupsNeverOverwrittenAsStated : Prop :=
  (∀ mirror_key w,
    backupsFresh (maven_configure_mirror mirror_key w).trace = true) ∧
  (∀ w, backupsFresh (minio_write_config w).2 = true)

/-- Counterexample to C3 as stated: MinIO's `write_config` always backs
up to `<path>.backup` with no existence check, so when that file already
exists it is overwritten. -/
theorem backup_overwrite_counterexample : ¬ BackupsNeverOverwrittenAsStated := by
  intro h
  have := h.2 ⟨some "cfg.json", true, true, true, true⟩
  exact absurd this (by decide)

/-- **C3 (amended).** Maven's backup is written to `<path>.backup`, or to
`<path>.backup.<timestamp>` when the plain name is already taken — a name
always distinct from `<path>.backup`, so the plain backup is never
overwritten, but the timestamped name's own availability is not checked
(two backups with the same timestamp would collide).  MinIO always backs
up to `<path>.backup`, overwriting any existing backup. -/
theorem backup_naming (w : MavenWorld) (w2 : MinioWorld) :
    (w.targetExists = true → w.plainBackupExists = false →
      (maven_backup_existing_settings w).2 =
        [Ev.backup settingsPath (settingsPath ++ ".backup") false w.backupCopyOk]) ∧
    (w.targetExists = true → w.plainBackupExists = true →
      (maven_backup_existing_settings w).2 =
        [Ev.backup settingsPath (settingsPath ++ ".backup." ++ w.timestamp)
          w.tsBackupExists w.backupCopyOk] ∧
      settingsPath ++ ".backup." ++ w.timestamp ≠ settingsPath ++ ".backup") ∧
    (w.targetExists = false → (maven_backup_existing_settings w).2 = []) ∧
    (∀ path, w2.configFile = some path → w2.targetExists = true →
      (minio_write_config w2).2.head? =
        some (Ev.backup path (path ++ ".backup") w2.backupExists w2.backupCopyOk)) := by
  refine ⟨?_, ?_, ?_, ?_⟩
  · intro h1 h2
    simp [maven_backup_existing_settings, h1, h2, plainBackupPath]
  · intro h1 h2
    refine ⟨by simp [maven_backup_existing_settings, h1, h2, tsBackupPath], ?_⟩
    intro heq
    have hl := congrArg String.length heq
    rw [String.length_append, String.length_append, String.length_append] at hl
    have e1 : String.length ".backup." = 8 := by decide
    have e2 : String.length ".backup" = 7 := by decide
    omega
  · intro h1
    simp [maven_backup_existing_settings, h1]
  · intro path hpath h1
    rcases w2 with ⟨cf, te, be, bok, wok⟩
    simp only at hpath h1
    subst hpath h1
    cases bok <;> simp [minio_write_config]

/-- Witness for C3 (amended) at concrete worlds (one per conjunct). -/
theorem backup_naming_witness :
    (maven_backup_existing_settings
      { sourceExists := true, templateContent := [], mkdirOk := true,
        targetExists := true, prevContent := [], plainBackupExists := false,
        tsBackupExists := false, timestamp := "20240101_000000",
        backupCopyOk := true, userContinue := false, copyTemplateOk := true,
        updateWriteOk := true, verified := true }).2 =
      [Ev.backup settingsPath (settingsPath ++ ".backup") false true] ∧
    (maven_backup_existing_settings
      { sourceExists := true, templateContent := [], mkdirOk := true,
        targetExists := true, prevContent := [], plainBackupExists := true,
        tsBackupExists := false, timestamp := "20240101_000000",
        backupCopyOk := true, userContinue := false, copyTemplateOk := true,
        updateWriteOk := true, verified := true }).2 =
      [Ev.backup settingsPath (settingsPath ++ ".backup." ++ "20240101_000000")
        false true] ∧
    (minio_write_config ⟨some "cfg.json", true, true, true, true⟩).2.head? =
      some (Ev.backup "cfg.json" ("cfg.json" ++ ".backup") true true) := by
  refine ⟨?_, ?_, ?_⟩
  · exact (backup_naming
      { sourceExists := true, templateContent := [], mkdirOk := true,
        targetExists := true, prevContent := [], plainBackupExists := false,
        tsBackupExists := false, timestamp := "20240101_000000",
        backupCopyOk := true, userContinue := false, copyTemplateOk := true,
        updateWriteOk := true, verified := true }
      ⟨some "cfg.json", true, true, true, true⟩).1 rfl rfl
  · exact ((backup_naming
      { sourceExists := true, templateContent := [], mkdirOk := true,
        targetExists := true, prevContent := [], plainBackupExists := true,
        tsBackupExists := false, timestamp := "20240101_000000",
        backupCopyOk := true, userContinue := false, copyTemplateOk := true,
        updateWriteOk := true, verified := true }
      ⟨some "cfg.json", true, true, true, true⟩).2.1 rfl rfl).1
  · exact (backup_naming
      { sourceExists := true, templateContent := [], mkdirOk := true,
        targetExists := true, prevContent := [], plainBackupExists := true,
        tsBackupExists := false, timestamp := "20240101_000000",
        backupCopyOk := true, userContinue := false, copyTemplateOk := true,
        updateWriteOk := true, verified := true }
      ⟨some "cfg.json", true, true, true, true⟩).2.2.2 "cfg.json" rfl rfl

/-! ### C4: verification is advisory -/

/-- Claim C4 as stated: when pip's or Maven's configure reaches the write
step and only the post-write verification fails, the operation still
reports success (returns `True`) and the written file is not rolled
back. -/
def VerifyAdvisoryAsStated : Prop :=
  (∀ mirror_key (w : PipWorld) km c2,
    PIP_MIRRORS.find? (fun p => p.1 == mirror_key) = some km →
    w.mkdirOk = true → w.setIndexUrl = SubResult.exit 0 →
    w.setTrustedHost = SubResult.exit c2 →
    w.current ≠ some mirror_key →
    (pip_configure_mirror mirror_key w).1 = true) ∧
  (∀ mirror_key (w : MavenWorld) km,
    MAVEN_MIRRORS.find? (fun p => p.1 == mirror_key) = some km →
    w.sourceExists = true → w.mkdirOk = true → w.backupCopyOk = true →
    w.copyTemplateOk = true → w.updateWriteOk = true → w.verified = false →
    (maven_configure_mirror mirror_key w).ok = true)

/-- Counterexample to C4 as stated: in Maven's `configure_mirror` a
failed verification prints the warning *and returns `False`* (exit code
1), not success. -/
theorem verify_failure_counterexample : ¬ VerifyAdvisoryAsStated := by
  intro h
  have := h.2 "aliyun"
    { sourceExists := true, templateContent := [], mkdirOk := true,
      targetExists := false, prevContent := [], plainBackupExists := false,
      tsBackupExists := false, timestamp := "t", backupCopyOk := true,
      userContinue := false, copyTemplateOk := true, updateWriteOk := true,
      verified := false }
    ("aliyun",
      { name := "阿里云公共仓库",
        url := "https://maven.aliyun.com/repository/public",
        home := some "https://developer.aliyun.com/mvn/" })
    (by decide) rfl rfl rfl rfl rfl rfl
  exact absurd this (by decide)

/-- **C4 (amended).** A failed post-write verification never rolls back
the written configuration, but the reported outcome differs by tool:
pip's `configure_mirror` downgrades to a warning and still returns
`True`, with no mutation after the verification step; Maven's
`configure_mirror` prints the warning but returns `False`, leaving the
just-written (template-derived, mirror-patched) file in place. -/
theorem verify_failure_outcome (mirror_key : String) (w : PipWorld)
    (wm : MavenWorld) (km km2 : String × Mirror) (c2 : ℕ)
    (hf1 : PIP_MIRRORS.find? (fun p => p.1 == mirror_key) = some km)
    (h1 : w.mkdirOk = true) (h2 : w.setIndexUrl = SubResult.exit 0)
    (h3 : w.setTrustedHost = SubResult.exit c2)
    (h4 : w.current ≠ some mirror_key)
    (hf2 : MAVEN_MIRRORS.find? (fun p => p.1 == mirror_key) = some km2)
    (m1 : wm.sourceExists = true) (m2 : wm.mkdirOk = true)
    (m3 : wm.backupCopyOk = true) (m4 : wm.copyTemplateOk = true)
    (m5 : wm.updateWriteOk = true) (m6 : wm.verified = false) :
    ((pip_configure_mirror mirror_key w).1 = true ∧
     Ev.warn "config-may-not-be-active" ∈ (pip_configure_mirror mirror_key w).2 ∧
     noMutationAfterVerify (pip_configure_mirror mirror_key w).2 = true) ∧
    ((maven_configure_mirror mirror_key wm).ok = false ∧
     Ev.warn "config-may-not-be-active" ∈ (maven_configure_mirror mirror_key wm).trace ∧
     (maven_configure_mirror mirror_key wm).finalContent =
       some (update_mirror_in_settings km2.2 wm.templateContent) ∧
     noMutationAfterVerify (maven_configure_mirror mirror_key wm).trace = true) := by
  constructor
  · have hb : (w.current == some mirror_key) = false := by
      rw [beq_eq_false_iff_ne]
      exact h4
    unfold pip_configure_mirror
    rw [hf1, h1, h2, h3]
    by_cases hc2 : c2 = 0 <;>
      simp [hc2, hb, noMutationAfterVerify]
  · rcases wm with ⟨se, tc, mk, te, pc, pbe, tbe, ts, bok, uc, cok, uok, ver⟩
    simp only at m1 m2 m3 m4 m5 m6
    subst m1 m2 m3 m4 m5 m6
    unfold maven_configure_mirror
    rw [hf2]
    cases te <;> cases pbe <;>
      simp [maven_backup_existing_settings, maven_apply_and_verify,
        noMutationAfterVerify]

/-- Witness for C4 (amended) at concrete worlds where verification
fails for both tools. -/
theorem verify_failure_outcome_witness :
    (pip_configure_mirror "aliyun" ⟨true, .exit 0, .exit 0, some "custom"⟩).1 = true ∧
    (maven_configure_mirror "aliyun"
      { sourceExists := true, templateContent := [], mkdirOk := true,
        targetExists := false, prevContent := [], plainBackupExists := false,
        tsBackupExists := false, timestamp := "t", backupCopyOk := true,
        userContinue := false, copyTemplateOk := true, updateWriteOk := true,
        verified := false }).ok = false := by
  have h := verify_failure_outcome "aliyun" ⟨true, .exit 0, .exit 0, some "custom"⟩
    { sourceExists := true, templateContent := [], mkdirOk := true,
      targetExists := false, prevContent := [], plainBackupExists := false,
      tsBackupExists := false, timestamp := "t", backupCopyOk := true,
      userContinue := false, copyTemplateOk := true, updateWriteOk := true,
      verified := false }
    ("aliyun",
      { name := "阿里云",
        url := "https://mirrors.aliyun.com/pypi/simple/",
        trusted_host := some "mirrors.aliyun.com" })
    ("aliyun",
      { name := "阿里云公共仓库",
        url := "https://maven.aliyun.com/repository/public",
        home := some "https://developer.aliyun.com/mvn/" })
    0 (by decide) rfl rfl rfl (by decide) (by decide) rfl rfl rfl rfl rfl rfl
  exact ⟨h.1.1, h.2.1⟩

/-! ### C8: unknown mirror key -/

/-- **C8.** For every key absent from the tool's catalog,
`configure_mirror` reports failure and performs no effect whatsoever:
no directory creation, no backup, no file write, no subprocess call.
Stated for pip and Composer. -/
theorem unknown_mirror_no_effects (mirror_key : String)
    (w : PipWorld) (w2 : ComposerWorld)
    (hp : mirror_key ∉ PIP_MIRRORS.map Prod.fst)
    (hc : mirror_key ∉ COMPOSER_MIRRORS.map Prod.fst) :
    pip_configure_mirror mirror_key w = (false, []) ∧
    composer_configure_mirror mirror_key w2 = (some false, []) := by
  have hfp : PIP_MIRRORS.find? (fun p => p.1 == mirror_key) = none := by
    rw [List.find?_eq_none]
    intro x hx hbeq
    refine hp ?_
    rw [← beq_iff_eq.mp hbeq]
    exact List.mem_map_of_mem Prod.fst hx
  have hfc : COMPOSER_MIRRORS.find? (fun p => p.1 == mirror_key) = none := by
    rw [List.find?_eq_none]
    intro x hx hbeq
    refine hc ?_
    rw [← beq_iff_eq.mp hbeq]
    exact List.mem_map_of_mem Prod.fst hx
  constructor
  · unfold pip_configure_mirror
    rw [hfp]
  · unfold composer_configure_mirror
    rw [hfc]

/-- Witness for C8 at the key `"bogus-key"`. -/
theorem unknown_mirror_no_effects_witness :
    pip_configure_mirror "bogus-key" ⟨true, .exit 0, .exit 0, none⟩ = (false, []) ∧
    composer_configure_mirror "bogus-key" ⟨.exit 0, true, .exit 0, none⟩ =
      (some false, []) :=
  unknown_mirror_no_effects "bogus-key" _ _ (by decide) (by decide)

/-! ### C10: pip trusted-host step -/

/-- C10 as stated, formalized: whenever the `global.index-url` step has
succeeded, *any* failure of the `global.trusted-host` step (non-zero
exit, timeout or exception) leaves the operation successful. -/
def TrustedHostFailureHarmlessAsStated : Prop :=
  ∀ mirror_key (w : PipWorld) km,
    PIP_MIRRORS.find? (fun p => p.1 == mirror_key) = some km →
    w.mkdirOk = true → w.setIndexUrl = SubResult.exit 0 →
    w.setTrustedHost ≠ SubResult.exit 0 →
    (pip_configure_mirror mirror_key w).1 = true

/-- Counterexample to C10 as stated: with a valid key and a successful
index-url step, a *timeout* of the trusted-host subprocess call (one way
for that step to fail) makes `configure_mirror` return `False`. -/
theorem pip_trusted_host_counterexample : ¬ TrustedHostFailureHarmlessAsStated := by
  intro h
  have hfind : PIP_MIRRORS.find? (fun p => p.1 == "tsinghua") =
      some ("tsinghua",
        { name := "清华大学",
          url := "https://pypi.tuna.tsinghua.edu.cn/simple",
          trusted_host := some "pypi.tuna.tsinghua.edu.cn" }) := by decide
  have := h "tsinghua" ⟨true, .exit 0, .timeout, some "tsinghua"⟩ _ hfind rfl rfl
    (by decide)
  exact absurd this (by decide)

/-- **C10 (amended).** For pip's `configure_mirror` with a valid key and a
successful index-url step: a trusted-host command that *completes with a
non-zero exit status* does not fail the operation — it is recorded as a
warning only, the operation proceeds to verification and returns `True`;
but a *timeout or exception* while running the trusted-host command
aborts the operation with `False` (both `pip config set` calls share one
`try` block whose except clauses return `False`). -/
theorem pip_trusted_host_step (mirror_key : String) (w w2 : PipWorld)
    (km : String × Mirror) (c2 : ℕ)
    (hfind : PIP_MIRRORS.find? (fun p => p.1 == mirror_key) = some km)
    (hmk : w.mkdirOk = true) (hidx : w.setIndexUrl = SubResult.exit 0)
    (hth : w.setTrustedHost = SubResult.exit c2) (hc : c2 ≠ 0)
    (hmk2 : w2.mkdirOk = true) (hidx2 : w2.setIndexUrl = SubResult.exit 0)
    (hth2 : w2.setTrustedHost = SubResult.timeout ∨ w2.setTrustedHost = SubResult.exc) :
    (pip_configure_mirror mirror_key w).1 = true ∧
    Ev.warn "trusted-host-set-failed" ∈ (pip_configure_mirror mirror_key w).2 ∧
    Ev.verifyCheck (w.current == some mirror_key) ∈ (pip_configure_mirror mirror_key w).2 ∧
    (pip_configure_mirror mirror_key w2).1 = false := by
  have h1 : pip_configure_mirror mirror_key w =
      (true,
        [Ev.mkdir "~/.pip" true,
         Ev.run ["pip", "config", "set", "global.index-url", km.2.url] (SubResult.exit 0),
         Ev.run ["pip", "config", "set", "global.trusted-host",
           km.2.trusted_host.getD ""] (SubResult.exit c2)] ++
        [Ev.warn "trusted-host-set-failed"] ++
        [Ev.verifyCheck (w.current == some mirror_key)] ++
        (if (w.current == some mirror_key) then [] else
          [Ev.warn "config-may-not-be-active"])) := by
    unfold pip_configure_mirror
    rw [hfind, hmk, hidx, hth]
    simp [hc]
  refine ⟨by rw [h1], ?_, ?_, ?_⟩
  · rw [h1]
    simp
  · rw [h1]
    simp
  · unfold pip_configure_mirror
    rw [hfind, hmk2, hidx2]
    rcases hth2 with h2 | h2 <;> rw [h2] <;> simp

/-- Witness for C10 (amended) at concrete worlds: trusted-host exits 1 in
`w`, times out in `w2`. -/
theorem pip_trusted_host_step_witness :
    (pip_configure_mirror "aliyun" ⟨true, .exit 0, .exit 1, some "aliyun"⟩).1 = true ∧
    Ev.warn "trusted-host-set-failed" ∈
      (pip_configure_mirror "aliyun" ⟨true, .exit 0, .exit 1, some "aliyun"⟩).2 ∧
    (pip_configure_mirror "aliyun" ⟨true, .exit 0, .timeout, some "aliyun"⟩).1 = false := by
  have h := pip_trusted_host_step "aliyun"
    ⟨true, .exit 0, .exit 1, some "aliyun"⟩ ⟨true, .exit 0, .timeout, some "aliyun"⟩
    ("aliyun",
      { name := "阿里云",
        url := "https://mirrors.aliyun.com/pypi/simple/",
        trusted_host := some "mirrors.aliyun.com" }) 1
    (by decide) rfl rfl rfl (by decide) rfl rfl (Or.inl rfl)
  exact ⟨h.1, h.2.1, h.2.2.2⟩

/-! ### C6: what a Maven apply does to the existing file -/

/-- Claim C6 as stated, formalized: a successful Maven mirror application
over an existing `settings.xml` leaves every byte of the previous file
unchanged except the located mirror block — i.e. the final contents are
the *previous* contents patched by `_update_mirror_in_settings`. -/
def MavenMinimalEditAsStated : Prop :=
  ∀ mirror_key (w : MavenWorld) km,
    MAVEN_MIRRORS.find? (fun p => p.1 == mirror_key) = some km →
    w.targetExists = true →
    (maven_configure_mirror mirror_key w).ok = true →
    (maven_configure_mirror mirror_key w).finalContent =
      some (update_mirror_in_settings km.2 w.prevContent)

/-- Counterexample to C6 as stated: `configure_mirror` first copies the
bundled template over the target (line 450) and only then patches that
fresh copy, so the final contents are derived from the template, not from
the previously existing file — which is discarded wholesale. -/
theorem maven_minimal_edit_counterexample : ¬ MavenMinimalEditAsStated := by
  intro h
  have := h "aliyun"
    { sourceExists := true, templateContent := "<mirrors></mirrors>".data,
      mkdirOk := true, targetExists := true, prevContent := "<a/>".data,
      plainBackupExists := false, tsBackupExists := false, timestamp := "t",
      backupCopyOk := true, userContinue := false, copyTemplateOk := true,
      updateWriteOk := true, verified := true }
    ("aliyun",
      { name := "阿里云公共仓库",
        url := "https://maven.aliyun.com/repository/public",
        home := some "https://developer.aliyun.com/mvn/" })
    (by decide) rfl (by decide)
  exact absurd this (by decide)

/-- **C6 (amended).** A successful `configure_mirror` run rewrites
`settings.xml` to the bundled template patched by
`_update_mirror_in_settings`; the bytes left untouched by the patch are
those of the template — the final contents do not depend on the
previously existing configuration file at all (its previous contents
survive only in the backup). -/
theorem maven_apply_rewrites_template (mirror_key : String) (w : MavenWorld)
    (km : String × Mirror)
    (hfind : MAVEN_MIRRORS.find? (fun p => p.1 == mirror_key) = some km)
    (hok : (maven_configure_mirror mirror_key w).ok = true) :
    (maven_configure_mirror mirror_key w).finalContent =
      some (update_mirror_in_settings km.2 w.templateContent) := by
  unfold maven_configure_mirror at hok ⊢
  rw [hfind] at hok ⊢
  rcases w with ⟨se, tc, mk, te, pc, pbe, tbe, ts, bok, uc, cok, uok, ver⟩
  cases se <;> cases mk <;> cases te <;> cases pbe <;> cases bok <;> cases uc <;>
    cases cok <;> cases uok <;> cases ver <;>
    simp_all [maven_backup_existing_settings, maven_apply_and_verify, mavenContent0]

/-- Witness for C6 (amended) at a concrete successful run. -/
theorem maven_apply_rewrites_template_witness :
    (maven_configure_mirror "aliyun"
      { sourceExists := true, templateContent := "<mirrors></mirrors>".data,
        mkdirOk := true, targetExists := true, prevContent := "<a/>".data,
        plainBackupExists := false, tsBackupExists := false, timestamp := "t",
        backupCopyOk := true, userContinue := false, copyTemplateOk := true,
        updateWriteOk := true, verified := true }).finalContent =
      some (update_mirror_in_settings
        { name := "阿里云公共仓库",
          url := "https://maven.aliyun.com/repository/public",
          home := some "https://developer.aliyun.com/mvn/" }
        "<mirrors></mirrors>".data) := by
  exact maven_apply_rewrites_template "aliyun"
    { sourceExists := true, templateContent := "<mirrors></mirrors>".data,
      mkdirOk := true, targetExists := true, prevContent := "<a/>".data,
      plainBackupExists := false, tsBackupExists := false, timestamp := "t",
      backupCopyOk := true, userContinue := false, copyTemplateOk := true,
      updateWriteOk := true, verified := true }
    ("aliyun",
      { name := "阿里云公共仓库",
        url := "https://maven.aliyun.com/repository/public",
        home := some "https://developer.aliyun.com/mvn/" })
    (by decide) (by decide)

/-! ### C7: where the mirror block lands -/

/-- Whether the first child (up to leading whitespace) inside the
`<mirrors>` element of `result` is a `<mirror>` element. -/
def firstChildIsMirror (result : Str) : Bool :=
  match splitOnFirst openMirrorsTag result with
  | none => false
  | some (_, rest) => openMirrorTag.isPrefixOf (rest.dropWhile Char.isWhitespace)

/-- Claim C7's insertion half as stated, formalized: whenever no
`<mirror>` block matches but a `<mirrors>` block does, the update places
the new `<mirror>` block as the first child of `<mirrors>`. -/
def MavenInsertFirstChildAsStated : Prop :=
  ∀ (m : Mirror) (content : Str),
    findBlock openMirrorTag closeMirrorTag content = none →
    (findBlock openMirrorsTag closeMirrorsTag content).isSome = true →
    firstChildIsMirror (update_mirror_in_settings m content) = true

/-- Counterexample to C7 as stated: the code substitutes
`'</mirrors>'` with the new block followed by `'</mirrors>'`, i.e. it
inserts immediately *before the closing tag* — the last position — so
with `<mirrors>X</mirrors>` the existing inner text `X` still precedes
the inserted block and the block is not the first child. -/
theorem mirror_insert_first_child_counterexample : ¬ MavenInsertFirstChildAsStated := by
  intro h
  have := h { name := "n", url := "https://h/x" } "<mirrors>X</mirrors>".data
    (by decide) (by decide)
  exact absurd this (by decide)

/-- **C7 (amended).** When a `<mirror>...</mirror>` block matches
(leftmost match, decomposing the content as `pre ++ block ++ post`, with
the matched text occurring nowhere else), the update replaces it
wholesale with the new block.  When no `<mirror>` block matches but a
`<mirrors>...</mirrors>` block does (with the analogous unique
decomposition, the closing tag sitting at the end of the matched block),
the update inserts the new `<mirror>` block immediately *before the
closing `</mirrors>` tag* — after any existing inner content, i.e. as
the last child, not the first. -/
theorem update_mirror_branches (m : Mirror) (content pre mid post : Str) :
    (splitOnFirst openMirrorTag content = some (pre, mid ++ closeMirrorTag ++ post) →
     splitOnFirst closeMirrorTag (mid ++ closeMirrorTag ++ post) = some (mid, post) →
     splitOnFirst (openMirrorTag ++ mid ++ closeMirrorTag) content = some (pre, post) →
     splitOnFirst (openMirrorTag ++ mid ++ closeMirrorTag) post = none →
     update_mirror_in_settings m content = pre ++ newMirrorBlock m ++ post) ∧
    (findBlock openMirrorTag closeMirrorTag content = none →
     splitOnFirst openMirrorsTag content = some (pre, mid ++ closeMirrorsTag ++ post) →
     splitOnFirst closeMirrorsTag (mid ++ closeMirrorsTag ++ post) = some (mid, post) →
     splitOnFirst closeMirrorsTag (openMirrorsTag ++ mid ++ closeMirrorsTag) =
       some (openMirrorsTag ++ mid, []) →
     splitOnFirst (openMirrorsTag ++ mid ++ closeMirrorsTag) content = some (pre, post) →
     splitOnFirst (openMirrorsTag ++ mid ++ closeMirrorsTag) post = none →
     update_mirror_in_settings m content =
       pre ++ (openMirrorsTag ++ mid ++ mirrorsInsertion m) ++ post) := by
  constructor
  · intro h1 h2 h3 h4
    have hfb : findBlock openMirrorTag closeMirrorTag content =
        some (pre, openMirrorTag ++ mid ++ closeMirrorTag, post) := by
      unfold findBlock
      rw [h1]
      show (match splitOnFirst closeMirrorTag (mid ++ closeMirrorTag ++ post) with
        | none => none
        | some (mid, post) =>
          some (pre, openMirrorTag ++ mid ++ closeMirrorTag, post)) = _
      rw [h2]
    unfold update_mirror_in_settings
    rw [hfb]
    exact replaceAll_single _ h3 h4
  · intro hno h1 h2 h3 h4 h5
    have hfb : findBlock openMirrorsTag closeMirrorsTag content =
        some (pre, openMirrorsTag ++ mid ++ closeMirrorsTag, post) := by
      unfold findBlock
      rw [h1]
      show (match splitOnFirst closeMirrorsTag (mid ++ closeMirrorsTag ++ post) with
        | none => none
        | some (mid, post) =>
          some (pre, openMirrorsTag ++ mid ++ closeMirrorsTag, post)) = _
      rw [h2]
    have hnew : replaceAll closeMirrorsTag (mirrorsInsertion m)
        (openMirrorsTag ++ mid ++ closeMirrorsTag) =
        (openMirrorsTag ++ mid) ++ mirrorsInsertion m ++ [] :=
      replaceAll_single _ h3 (by decide)
    have houter := replaceAll_single
      (replaceAll closeMirrorsTag (mirrorsInsertion m)
        (openMirrorsTag ++ mid ++ closeMirrorsTag)) h4 h5
    unfold update_mirror_in_settings
    rw [hno, hfb]
    show replaceAll (openMirrorsTag ++ mid ++ closeMirrorsTag)
      (replaceAll closeMirrorsTag (mirrorsInsertion m)
        (openMirrorsTag ++ mid ++ closeMirrorsTag)) content = _
    rw [houter, hnew]
    simp

/-- Witness for C7 (amended): both branches at concrete contents. -/
theorem update_mirror_branches_witness :
    update_mirror_in_settings { name := "n", url := "https://h/x" }
      "<a><mirror>M</mirror><b>".data =
      "<a>".data ++ newMirrorBlock { name := "n", url := "https://h/x" } ++ "<b>".data ∧
    update_mirror_in_settings { name := "n", url := "https://h/x" }
      "<s><mirrors>I</mirrors></s>".data =
      "<s>".data ++ (openMirrorsTag ++ "I".data ++
        mirrorsInsertion { name := "n", url := "https://h/x" }) ++ "</s>".data := by
  constructor
  · exact (update_mirror_branches { name := "n", url := "https://h/x" }
      "<a><mirror>M</mirror><b>".data "<a>".data "M".data "<b>".data).1
      (by decide) (by decide) (by decide) (by decide)
  · exact (update_mirror_branches { name := "n", url := "https://h/x" }
      "<s><mirrors>I</mirrors></s>".data "<s>".data "I".data "</s>".data).2
      (by decide) (by decide) (by decide) (by decide) (by decide) (by decide)

end DevManager
